import Mathlib

/-!
Shallow embedding of the crawl-strategy decision engine of
`zyte_spider_templates/spiders/ecommerce.py` (class `EcommerceSpider`),
together with theorems checking the natural-language specification
against it.

Python floats standing for extraction probabilities are modelled as
rationals (`ℚ`); Python `int()` truncation is `pyInt`; Python `x or y`
fallbacks on `Optional` values are modelled by explicit truthiness
helpers; None, 0, 0.0, the empty string, the empty dict and the empty
list are falsy.
-/

namespace ZyteSpider

/-- `EcommerceCrawlStrategy` enum from `spiders/ecommerce.py`. -/
inductive EcommerceCrawlStrategy where
  | full
  | navigation
  | pagination_only
deriving DecidableEq, Repr

/-- The `metadata` attribute of `zyte_common_items` requests/items:
an optional extraction-confidence probability. -/
structure Metadata where
  probability : Option ℚ
deriving DecidableEq, Repr

/-- `zyte_common_items.ProbabilityRequest`: a discovered link with an
optional name and optional metadata. -/
structure ProbabilityRequest where
  url : String
  name : Option String
  metadata : Option Metadata
deriving DecidableEq, Repr

/-- `ProbabilityRequest.get_probability`: the metadata probability when
metadata is present, else `None`. -/
def ProbabilityRequest.get_probability (r : ProbabilityRequest) : Option ℚ :=
  r.metadata.bind (fun md => md.probability)

/-- `zyte_common_items.Product` as consumed by `parse_product`: only the
fields the decision engine reads. -/
structure Product where
  url : String
  metadata : Option Metadata
deriving DecidableEq, Repr

/-- `Product.get_probability`. -/
def Product.get_probability (p : Product) : Option ℚ :=
  p.metadata.bind (fun md => md.probability)

/-- `zyte_common_items.ProductNavigation`: one navigation-page extraction
result. `items`, `nextPage` and `subCategories` are all optional. -/
structure ProductNavigation where
  url : String
  items : Option (List ProbabilityRequest)
  nextPage : Option ProbabilityRequest
  subCategories : Option (List ProbabilityRequest)
deriving DecidableEq, Repr

/-- The `page_params` dict: a key-value bag, modelled as an association
list. The empty dict is the empty list. -/
abbrev PageParams := List (String × String)

/-- The two callbacks a produced request can route to. -/
inductive Callback where
  | parse_navigation
  | parse_product
deriving DecidableEq, Repr

/-- The `meta` dict attached to an emitted `scrapy.Request`:
`page_params` is `some` when the key is present (product requests omit
it), `crawling_logs` fields are inlined, and `allow_offsite` is `true`
exactly when the key is set. -/
structure RequestMeta where
  page_params : Option PageParams
  crawling_logs_name : Option String
  crawling_logs_probability : Option ℚ
  crawling_logs_page_type : String
  allow_offsite : Bool
deriving DecidableEq, Repr

/-- An emitted `scrapy.Request` (the result of `.to_scrapy(...)`). -/
structure ScrapyRequest where
  url : String
  callback : Callback
  priority : ℤ
  meta : RequestMeta
deriving DecidableEq, Repr

/-- Python `int()` applied to a rational: truncation toward zero. -/
def pyInt (q : ℚ) : ℤ :=
  if 0 ≤ q then ⌊q⌋ else ⌈q⌉

/-- Python `x or d` for an optional integer `x`: `None` and `0` fall
back to `d`. -/
def pyOrInt (x : Option ℤ) (d : ℤ) : ℤ :=
  match x with
  | none => d
  | some v => if v = 0 then d else v

/-- Python `x or d` for an optional rational `x`: `None` and `0.0` fall
back to `d`. -/
def pyOrRat (x : Option ℚ) (d : ℚ) : ℚ :=
  match x with
  | none => d
  | some v => if v = 0 then d else v

/-- Python `x or` empty-dict for an optional dict `x`: `None` and the
empty dict both give the empty dict, which equals the empty association
list, so this is `Option.getD`. -/
def pyOrParams (x : Option PageParams) : PageParams :=
  x.getD []

/-- The marker substring `"[heuristics]"`, as a character list. -/
def heuristicsMarker : List Char := "[heuristics]".data

/-- Fuel-driven scan for the marker at every position of a character
list (structural recursion so that concrete instances evaluate). -/
def containsMarkerAux : ℕ → List Char → Bool
  | 0, l => heuristicsMarker.isPrefixOf l
  | fuel + 1, l =>
    heuristicsMarker.isPrefixOf l ||
      match l with
      | [] => false
      | _ :: rest => containsMarkerAux fuel rest

/-- Python `"[heuristics]" in name`. -/
def containsHeuristicsMarker (name : String) : Bool :=
  containsMarkerAux name.data.length name.data

/-- Fuel-driven left-to-right removal of every (non-overlapping)
occurrence of the marker, the semantics of Python
`name.replace("[heuristics]", "")`. -/
def removeMarkerAux : ℕ → List Char → List Char
  | 0, l => l
  | fuel + 1, l =>
    if heuristicsMarker.isPrefixOf l then
      removeMarkerAux fuel (l.drop heuristicsMarker.length)
    else
      match l with
      | [] => []
      | c :: rest => c :: removeMarkerAux fuel rest

/-- Python `str.strip()`: drop whitespace from both ends. -/
def pyStripChars (l : List Char) : List Char :=
  ((l.dropWhile Char.isWhitespace).reverse.dropWhile Char.isWhitespace).reverse

/-- Python `name.replace("[heuristics]", "").strip()`. -/
def stripHeuristicsMarker (name : String) : String :=
  String.mk (pyStripChars (removeMarkerAux name.data.length name.data))

/-- `EcommerceSpider._NEXT_PAGE_PRIORITY`.

Modelled from the spec: the constant is inherited from `BaseSpider` in
`spiders/base.py`, which is not among the provided source files; the
spec fixes `NEXT_PAGE_PRIORITY_BIAS` at 100 (`priority(nextPage) =
100`). -/
def NEXT_PAGE_PRIORITY : ℤ := 100

/-- `EcommerceSpider.get_parse_navigation_request_priority`:
0 when metadata is absent or its probability is `None`, else
`int(100 * probability)`. -/
def get_parse_navigation_request_priority (request : ProbabilityRequest) : ℤ :=
  match request.metadata with
  | none => 0
  | some md =>
    match md.probability with
    | none => 0
    | some p => pyInt (100 * p)

/-- `EcommerceSpider.get_parse_navigation_request`. -/
def get_parse_navigation_request (request : ProbabilityRequest)
    (callback : Option Callback) (page_params : Option PageParams)
    (priority : Option ℤ) (page_type : String) : ScrapyRequest :=
  { url := request.url
    callback := callback.getD Callback.parse_navigation
    priority := pyOrInt priority (get_parse_navigation_request_priority request)
    meta :=
      { page_params := some (pyOrParams page_params)
        crawling_logs_name := some (request.name.getD "")
        crawling_logs_probability := request.get_probability
        crawling_logs_page_type := page_type
        allow_offsite := false } }

/-- `EcommerceSpider.get_subcategory_request`: names without the
`"[heuristics]"` marker drop the page params and keep page type
`"subCategories"`; names with it strip the marker and use page type
`"productNavigation-heuristics"`. -/
def get_subcategory_request (request : ProbabilityRequest)
    (callback : Option Callback) (page_params : Option PageParams)
    (priority : Option ℤ) : ScrapyRequest :=
  if ¬ containsHeuristicsMarker (request.name.getD "") then
    get_parse_navigation_request request callback none priority "subCategories"
  else
    get_parse_navigation_request
      { request with name := some (stripHeuristicsMarker (request.name.getD "")) }
      callback page_params priority "productNavigation-heuristics"

/-- `EcommerceSpider.get_nextpage_request`. -/
def get_nextpage_request (request : ProbabilityRequest)
    (callback : Option Callback) (page_params : Option PageParams) : ScrapyRequest :=
  get_parse_navigation_request request callback page_params
    (some NEXT_PAGE_PRIORITY) "nextPage"

/-- `EcommerceSpider.get_parse_product_request_priority`:
`int(100 * (get_probability() or 0)) + _NEXT_PAGE_PRIORITY`. -/
def get_parse_product_request_priority (request : ProbabilityRequest) : ℤ :=
  pyInt (100 * pyOrRat request.get_probability 0) + NEXT_PAGE_PRIORITY

/-- `EcommerceSpider.get_parse_product_request`: no `page_params` in the
meta, `allow_offsite` set to `True` after `.to_scrapy(...)`. -/
def get_parse_product_request (request : ProbabilityRequest)
    (callback : Option Callback) : ScrapyRequest :=
  { url := request.url
    callback := callback.getD Callback.parse_product
    priority := get_parse_product_request_priority request
    meta :=
      { page_params := none
        crawling_logs_name := request.name
        crawling_logs_probability := request.get_probability
        crawling_logs_page_type := "product"
        allow_offsite := true } }

/-- `EcommerceSpider.parse_navigation`: product requests first, then the
next-page request (skipped when the product list is empty), then — for
strategies other than `pagination_only` — one subcategory request per
subcategory link, carrying the `page_params` of the response forward. -/
def parse_navigation (strategy : EcommerceCrawlStrategy)
    (page_params : Option PageParams) (navigation : ProductNavigation) :
    List ScrapyRequest :=
  (navigation.items.getD []).map (fun r => get_parse_product_request r none) ++
    (match navigation.nextPage with
     | none => []
     | some np =>
       if (navigation.items.getD []).isEmpty then []
       else [get_nextpage_request np none none]) ++
    (if strategy ≠ EcommerceCrawlStrategy.pagination_only then
      (navigation.subCategories.getD []).map
        (fun r => get_subcategory_request r none page_params none)
    else [])

/-- `EcommerceSpider.parse_product`: yield the product when its
probability is `None` or at least 0.1; otherwise yield nothing and
increment the `drop_item/product/low_probability` counter. The counter
is threaded explicitly; the result is (yielded items, new counter). -/
def parse_product (dropCounter : ℕ) (product : Product) : List Product × ℕ :=
  match product.get_probability with
  | none => ([product], dropCounter)
  | some p =>
    if (1 : ℚ)/10 ≤ p then ([product], dropCounter)
    else ([], dropCounter + 1)

/-- The `page_params` computed at the top of
`EcommerceSpider.start_requests`: the `full_domain` entry under the
`full` strategy, the empty dict otherwise. -/
def start_page_params (strategy : EcommerceCrawlStrategy) (domain : String) :
    PageParams :=
  if strategy = EcommerceCrawlStrategy.full then [("full_domain", domain)] else []

/-- `EcommerceSpider.start_requests`: one navigation request per start
URL, all carrying the crawl-start `page_params`. Under `full` the domain
is `allowed_domains[0]`; an empty `allowed_domains` raises `IndexError`,
modelled as `none`. -/
def start_requests (strategy : EcommerceCrawlStrategy)
    (allowed_domains : List String) (start_urls : List String) :
    Option (List ScrapyRequest) :=
  let mkRequests : PageParams → List ScrapyRequest := fun pp =>
    start_urls.map (fun url =>
      { url := url
        callback := Callback.parse_navigation
        priority := 0
        meta :=
          { page_params := some pp
            crawling_logs_name := none
            crawling_logs_probability := none
            crawling_logs_page_type := "productNavigation"
            allow_offsite := false } })
  match strategy, allowed_domains with
  | EcommerceCrawlStrategy.full, [] => none
  | EcommerceCrawlStrategy.full, d :: _ =>
    some (mkRequests (start_page_params EcommerceCrawlStrategy.full d))
  | s, _ => some (mkRequests (start_page_params s ""))

/-- Spec-side request classification: tagged as a subcategory request
(plain or heuristic). -/
def isSubcategoryTagged (r : ScrapyRequest) : Bool :=
  r.meta.crawling_logs_page_type == "subCategories" ||
    r.meta.crawling_logs_page_type == "productNavigation-heuristics"

/-- Spec-side request classification: tagged as a next-page request. -/
def isNextPageTagged (r : ScrapyRequest) : Bool :=
  r.meta.crawling_logs_page_type == "nextPage"

/-! ## Helper lemmas -/

lemma pyOrRat_some_zero (p : ℚ) : pyOrRat (some p) 0 = p := by
  show (if p = 0 then (0 : ℚ) else p) = p
  split
  · simp_all
  · rfl

lemma pyInt_of_nonneg (q : ℚ) (h : 0 ≤ q) : pyInt q = ⌊q⌋ := if_pos h

lemma pyOrInt_some_nonzero (v d : ℤ) (h : v ≠ 0) : pyOrInt (some v) d = v := by
  show (if v = 0 then d else v) = v
  simp [h]

lemma get_subcategory_request_priority_eq (r : ProbabilityRequest)
    (cb : Option Callback) (pp : Option PageParams) (pr : Option ℤ) :
    (get_subcategory_request r cb pp pr).priority =
      pyOrInt pr (get_parse_navigation_request_priority r) := by
  unfold get_subcategory_request
  split <;> rfl

lemma get_parse_navigation_request_priority_of_probability
    (r : ProbabilityRequest) (p : ℚ) (h : r.get_probability = some p) :
    get_parse_navigation_request_priority r = pyInt (100 * p) := by
  unfold ProbabilityRequest.get_probability at h
  unfold get_parse_navigation_request_priority
  cases hm : r.metadata with
  | none => rw [hm] at h; simp at h
  | some md =>
    rw [hm] at h
    simp at h
    show (match md.probability with
          | none => 0
          | some p => pyInt (100 * p)) = pyInt (100 * p)
    rw [h]

lemma filter_map_eq_nil {α β : Type} (f : α → β) (p : β → Bool) (l : List α)
    (h : ∀ x, p (f x) = false) : (l.map f).filter p = [] := by
  induction l with
  | nil => rfl
  | cons a l ih => simp [h, ih]

lemma filter_map_eq_self {α β : Type} (f : α → β) (p : β → Bool) (l : List α)
    (h : ∀ x, p (f x) = true) : (l.map f).filter p = l.map f := by
  induction l with
  | nil => rfl
  | cons a l ih => simp [h, ih]

lemma nextpage_not_subcatTagged (r : ProbabilityRequest) (cb : Option Callback)
    (pp : Option PageParams) :
    isSubcategoryTagged (get_nextpage_request r cb pp) = false := rfl

lemma nextpage_isNextTagged (r : ProbabilityRequest) (cb : Option Callback)
    (pp : Option PageParams) :
    isNextPageTagged (get_nextpage_request r cb pp) = true := rfl

lemma subcat_not_nextPageTagged (r : ProbabilityRequest) (cb : Option Callback)
    (pp : Option PageParams) (pr : Option ℤ) :
    isNextPageTagged (get_subcategory_request r cb pp pr) = false := by
  unfold get_subcategory_request
  split <;> rfl

lemma subcat_isSubcategoryTagged (r : ProbabilityRequest) (cb : Option Callback)
    (pp : Option PageParams) (pr : Option ℤ) :
    isSubcategoryTagged (get_subcategory_request r cb pp pr) = true := by
  unfold get_subcategory_request
  split <;> rfl

/-! ## Theorems about the claims -/

/-- C6: every request emitted by `get_nextpage_request` has priority
exactly 100 (`_NEXT_PAGE_PRIORITY`) and the `nextPage` page type,
regardless of the name, metadata or probability of the candidate. -/
theorem nextpage_request_priority_const (r : ProbabilityRequest)
    (cb : Option Callback) (pp : Option PageParams) :
    (get_nextpage_request r cb pp).priority = 100 ∧
    (get_nextpage_request r cb pp).meta.crawling_logs_page_type = "nextPage" :=
  ⟨rfl, rfl⟩

/-- C9: `get_parse_product_request` always sets `allow_offsite`, while
navigation, subcategory and next-page requests never carry it. -/
theorem allow_offsite_only_product (r : ProbabilityRequest)
    (cb cb2 : Option Callback) (pp : Option PageParams) (pr : Option ℤ)
    (pt : String) :
    (get_parse_product_request r cb).meta.allow_offsite = true ∧
    (get_parse_navigation_request r cb2 pp pr pt).meta.allow_offsite = false ∧
    (get_subcategory_request r cb2 pp pr).meta.allow_offsite = false ∧
    (get_nextpage_request r cb2 pp).meta.allow_offsite = false := by
  refine ⟨rfl, rfl, ?_, rfl⟩
  unfold get_subcategory_request
  split <;> rfl

/-- C10: an explicit priority argument of 0 is indistinguishable from an
omitted one — `priority or ...` selects the fallback by truthiness, so
the emitted priority is recomputed from the probability of the candidate
(`floor(100 * p)`, or 0 when metadata is absent). -/
theorem explicit_zero_priority_ignored (r : ProbabilityRequest)
    (cb : Option Callback) (pp : Option PageParams) (pt : String) (p : ℚ) :
    get_parse_navigation_request r cb pp (some 0) pt =
      get_parse_navigation_request r cb pp none pt ∧
    get_subcategory_request r cb pp (some 0) =
      get_subcategory_request r cb pp none ∧
    (r.metadata = none →
      (get_parse_navigation_request r cb pp (some 0) pt).priority = 0) ∧
    (r.get_probability = some p → 0 ≤ p →
      (get_parse_navigation_request r cb pp (some 0) pt).priority = ⌊100 * p⌋) := by
  have hzero : ∀ d : ℤ, pyOrInt (some 0) d = d := by
    intro d
    unfold pyOrInt
    simp
  refine ⟨?_, ?_, ?_, ?_⟩
  · unfold get_parse_navigation_request
    rw [hzero]
    rfl
  · unfold get_subcategory_request
    split <;> (unfold get_parse_navigation_request; rw [hzero]; rfl)
  · intro h
    show pyOrInt (some 0) (get_parse_navigation_request_priority r) = 0
    rw [hzero]
    unfold get_parse_navigation_request_priority
    rw [h]
  · intro h hp
    show pyOrInt (some 0) (get_parse_navigation_request_priority r) = ⌊100 * p⌋
    rw [hzero, get_parse_navigation_request_priority_of_probability r p h,
      pyInt_of_nonneg]
    exact mul_nonneg (by norm_num) hp

/-- Witness for C10 at a concrete candidate without metadata: the
explicitly passed priority 0 is replaced by the recomputed value 0. -/
theorem explicit_zero_priority_ignored_witness :
    (get_parse_navigation_request
      { url := "https://example.com/c", name := none, metadata := none }
      none none (some 0) "productNavigation").priority = 0 :=
  (explicit_zero_priority_ignored
    { url := "https://example.com/c", name := none, metadata := none }
    none none "productNavigation" 0).2.2.1 rfl

/-- C5: the priority of a product request is `floor(100 * p) + 100` for a
known probability `p` in `[0, 1]`, is monotonically non-decreasing in
the probability, and an unknown (`None`) probability is treated as 0,
giving priority 100. -/
theorem product_request_priority_spec (r r2 : ProbabilityRequest)
    (cb : Option Callback) (p q : ℚ) :
    (r.get_probability = some p → 0 ≤ p → p ≤ 1 →
      (get_parse_product_request r cb).priority = ⌊100 * p⌋ + 100) ∧
    (r.get_probability = none → (get_parse_product_request r cb).priority = 100) ∧
    (r.get_probability = some p → r2.get_probability = some q → 0 ≤ p → p ≤ q →
      (get_parse_product_request r cb).priority ≤
        (get_parse_product_request r2 cb).priority) := by
  have hbase : ∀ (s : ProbabilityRequest) (c : Option Callback) (x : ℚ),
      s.get_probability = some x → 0 ≤ x →
      (get_parse_product_request s c).priority = ⌊100 * x⌋ + 100 := by
    intro s c x hx hx0
    show pyInt (100 * pyOrRat s.get_probability 0) + NEXT_PAGE_PRIORITY =
      ⌊100 * x⌋ + 100
    rw [hx, pyOrRat_some_zero, pyInt_of_nonneg _ (mul_nonneg (by norm_num) hx0)]
    rfl
  refine ⟨fun h h0 _ => hbase r cb p h h0, ?_, ?_⟩
  · intro h
    show pyInt (100 * pyOrRat r.get_probability 0) + NEXT_PAGE_PRIORITY = 100
    rw [h]
    show pyInt (100 * 0) + NEXT_PAGE_PRIORITY = 100
    rw [mul_zero, pyInt_of_nonneg _ le_rfl, Int.floor_zero]
    rfl
  · intro hp hq h0 hpq
    rw [hbase r cb p hp h0, hbase r2 cb q hq (le_trans h0 hpq)]
    have hf : ⌊(100 : ℚ) * p⌋ ≤ ⌊(100 : ℚ) * q⌋ :=
      Int.floor_le_floor (by linarith)
    omega

/-- Witness for C5 at probability 4/5: the emitted priority is
`floor(80) + 100 = 180`. -/
theorem product_request_priority_spec_witness :
    (get_parse_product_request
      { url := "https://example.com/p", name := none,
        metadata := some { probability := some ((4 : ℚ)/5) } } none).priority
      = 180 := by
  have h := (product_request_priority_spec
    { url := "https://example.com/p", name := none,
      metadata := some { probability := some ((4 : ℚ)/5) } }
    { url := "https://example.com/p", name := none,
      metadata := some { probability := some ((4 : ℚ)/5) } }
    none ((4 : ℚ)/5) ((4 : ℚ)/5)).1 rfl (by norm_num) (by norm_num)
  rw [h]
  norm_num

/-- C7: the priority of a subcategory request is `floor(100 * p)` when the
probability `p` of the candidate is known, and 0 when the candidate has no
metadata or its probability is `None`. -/
theorem subcategory_request_priority_spec (r : ProbabilityRequest)
    (cb : Option Callback) (pp : Option PageParams) (p : ℚ) :
    (r.metadata = none → (get_subcategory_request r cb pp none).priority = 0) ∧
    (∀ md, r.metadata = some md → md.probability = none →
      (get_subcategory_request r cb pp none).priority = 0) ∧
    (r.get_probability = some p → 0 ≤ p →
      (get_subcategory_request r cb pp none).priority = ⌊100 * p⌋) := by
  refine ⟨?_, ?_, ?_⟩
  · intro h
    rw [get_subcategory_request_priority_eq]
    show get_parse_navigation_request_priority r = 0
    unfold get_parse_navigation_request_priority
    rw [h]
  · intro md hmd hprob
    rw [get_subcategory_request_priority_eq]
    show get_parse_navigation_request_priority r = 0
    unfold get_parse_navigation_request_priority
    rw [hmd]
    show ((match md.probability with
          | none => (0 : ℤ)
          | some p => pyInt (100 * p)) : ℤ) = (0 : ℤ)
    rw [hprob]
  · intro h hp
    rw [get_subcategory_request_priority_eq]
    show get_parse_navigation_request_priority r = ⌊100 * p⌋
    rw [get_parse_navigation_request_priority_of_probability r p h,
      pyInt_of_nonneg _ (mul_nonneg (by norm_num) hp)]

/-- Witness for C7 at probability 1/2: the emitted subcategory request
has priority `floor(50) = 50`. -/
theorem subcategory_request_priority_spec_witness :
    (get_subcategory_request
      { url := "https://example.com/c", name := some "Shoes",
        metadata := some { probability := some ((1 : ℚ)/2) } }
      none none none).priority = 50 := by
  have h := (subcategory_request_priority_spec
    { url := "https://example.com/c", name := some "Shoes",
      metadata := some { probability := some ((1 : ℚ)/2) } }
    none none ((1 : ℚ)/2)).2.2 rfl (by norm_num)
  rw [h]
  norm_num

/-- C2: `parse_product` yields the product when its probability is
`None` or at least 1/10 (so exactly 1/10 is accepted), and otherwise
yields nothing while incrementing the
`drop_item/product/low_probability` counter by exactly 1. -/
theorem parse_product_threshold (dropCounter : ℕ) (product : Product) (p : ℚ) :
    (product.get_probability = none →
      parse_product dropCounter product = ([product], dropCounter)) ∧
    (product.get_probability = some p → (1 : ℚ)/10 ≤ p →
      parse_product dropCounter product = ([product], dropCounter)) ∧
    (product.get_probability = some p → p < (1 : ℚ)/10 →
      parse_product dropCounter product = ([], dropCounter + 1)) := by
  refine ⟨?_, ?_, ?_⟩
  · intro h
    unfold parse_product
    rw [h]
  · intro h hp
    unfold parse_product
    rw [h]
    show (if (1 : ℚ)/10 ≤ p then ([product], dropCounter)
          else ([], dropCounter + 1)) = ([product], dropCounter)
    rw [if_pos hp]
  · intro h hp
    unfold parse_product
    rw [h]
    show (if (1 : ℚ)/10 ≤ p then ([product], dropCounter)
          else ([], dropCounter + 1)) = ([], dropCounter + 1)
    rw [if_neg (not_le.mpr hp)]

/-- Witness for C2: a product with probability exactly 1/10 is yielded
with the counter unchanged; one with probability 999/10000 (= 0.0999)
is dropped and the counter goes from 7 to 8. -/
theorem parse_product_threshold_witness :
    parse_product 0
      { url := "https://example.com/p1",
        metadata := some { probability := some ((1 : ℚ)/10) } } =
      ([{ url := "https://example.com/p1",
          metadata := some { probability := some ((1 : ℚ)/10) } }], 0) ∧
    parse_product 7
      { url := "https://example.com/p2",
        metadata := some { probability := some ((999 : ℚ)/10000) } } =
      ([], 8) :=
  ⟨(parse_product_threshold 0
      { url := "https://example.com/p1",
        metadata := some { probability := some ((1 : ℚ)/10) } }
      ((1 : ℚ)/10)).2.1 rfl (by norm_num),
   (parse_product_threshold 7
      { url := "https://example.com/p2",
        metadata := some { probability := some ((999 : ℚ)/10000) } }
      ((999 : ℚ)/10000)).2.2 rfl (by norm_num)⟩

/-! ## Sample data used by counterexamples and witnesses -/

/-- A plain subcategory candidate (no heuristics marker). -/
def sampleSubcatLink : ProbabilityRequest :=
  { url := "https://example.com/category/shoes", name := some "Shoes",
    metadata := none }

/-- A heuristics-flagged subcategory candidate. -/
def sampleHeuristicsLink : ProbabilityRequest :=
  { url := "https://example.com/maybe-category",
    name := some "[heuristics] Shoes", metadata := none }

/-- A product candidate. -/
def sampleProductLink : ProbabilityRequest :=
  { url := "https://example.com/product/1", name := some "Sneaker",
    metadata := none }

/-- A next-page candidate. -/
def sampleNextPageLink : ProbabilityRequest :=
  { url := "https://example.com/page/2", name := none, metadata := none }

/-! ## Chunk-level filter lemmas -/

lemma filter_products_subcatTagged (l : List ProbabilityRequest) :
    (l.map (fun r => get_parse_product_request r none)).filter
      isSubcategoryTagged = [] :=
  filter_map_eq_nil _ _ _ (fun _ => rfl)

lemma filter_products_nextTagged (l : List ProbabilityRequest) :
    (l.map (fun r => get_parse_product_request r none)).filter
      isNextPageTagged = [] :=
  filter_map_eq_nil _ _ _ (fun _ => rfl)

lemma filter_subcats_subcatTagged (pp : Option PageParams)
    (l : List ProbabilityRequest) :
    (l.map (fun r => get_subcategory_request r none pp none)).filter
        isSubcategoryTagged =
      l.map (fun r => get_subcategory_request r none pp none) :=
  filter_map_eq_self _ _ _ (fun x => subcat_isSubcategoryTagged x none pp none)

lemma filter_subcats_nextTagged (pp : Option PageParams)
    (l : List ProbabilityRequest) :
    (l.map (fun r => get_subcategory_request r none pp none)).filter
      isNextPageTagged = [] :=
  filter_map_eq_nil _ _ _ (fun x => subcat_not_nextPageTagged x none pp none)

lemma parse_navigation_filter_subcat (strategy : EcommerceCrawlStrategy)
    (pp : Option PageParams) (nav : ProductNavigation) :
    (parse_navigation strategy pp nav).filter isSubcategoryTagged =
      if strategy ≠ EcommerceCrawlStrategy.pagination_only then
        (nav.subCategories.getD []).map
          (fun r => get_subcategory_request r none pp none)
      else [] := by
  obtain ⟨u, items, nextPage, subs⟩ := nav
  unfold parse_navigation
  cases nextPage with
  | none =>
    by_cases hs : strategy ≠ EcommerceCrawlStrategy.pagination_only <;>
      simp [hs, List.filter_append, filter_products_subcatTagged,
        filter_subcats_subcatTagged]
  | some np =>
    by_cases hs : strategy ≠ EcommerceCrawlStrategy.pagination_only <;>
      cases hemp : (items.getD ([] : List ProbabilityRequest)).isEmpty <;>
        simp [hs, hemp, List.filter_append, List.filter_cons,
          filter_products_subcatTagged, filter_subcats_subcatTagged,
          nextpage_not_subcatTagged]

/-- C3: under `pagination_only` the emitted request sequence contains no
subcategory-tagged (plain or heuristic) request, for any navigation
result; under any other strategy every subcategory link yields exactly
one subcategory-tagged request. -/
theorem pagination_only_skips_subcategories (strategy : EcommerceCrawlStrategy)
    (pp : Option PageParams) (nav : ProductNavigation) :
    ((parse_navigation EcommerceCrawlStrategy.pagination_only pp nav).filter
        isSubcategoryTagged = []) ∧
    (strategy ≠ EcommerceCrawlStrategy.pagination_only →
      ((parse_navigation strategy pp nav).filter isSubcategoryTagged).length =
        (nav.subCategories.getD []).length) := by
  constructor
  · rw [parse_navigation_filter_subcat]
    simp
  · intro h
    rw [parse_navigation_filter_subcat, if_pos h, List.length_map]

/-- Witness for C3: under `navigation`, a navigation result with one
subcategory link yields exactly one subcategory-tagged request. -/
theorem pagination_only_skips_subcategories_witness :
    ((parse_navigation EcommerceCrawlStrategy.navigation none
        { url := "https://example.com", items := some [], nextPage := none,
          subCategories := some [sampleSubcatLink] }).filter
      isSubcategoryTagged).length = 1 := by
  rw [(pagination_only_skips_subcategories EcommerceCrawlStrategy.navigation none
    { url := "https://example.com", items := some [], nextPage := none,
      subCategories := some [sampleSubcatLink] }).2 (by decide)]
  rfl

/-- C4: when the next-page link is present, the emitted sequence has no
`nextPage`-tagged request if the product list is empty, and exactly the
one next-page request otherwise. -/
theorem empty_product_list_skips_nextpage (strategy : EcommerceCrawlStrategy)
    (pp : Option PageParams) (nav : ProductNavigation)
    (np : ProbabilityRequest) (h : nav.nextPage = some np) :
    ((nav.items.getD []).isEmpty = true →
      (parse_navigation strategy pp nav).filter isNextPageTagged = []) ∧
    ((nav.items.getD []).isEmpty = false →
      (parse_navigation strategy pp nav).filter isNextPageTagged =
        [get_nextpage_request np none none]) := by
  unfold parse_navigation
  rw [h]
  constructor <;> intro h2 <;> rw [h2] <;>
    simp [List.filter_append, List.filter_cons, filter_products_nextTagged,
      apply_ite (List.filter isNextPageTagged), filter_subcats_nextTagged,
      nextpage_isNextTagged]

/-- Witness for C4: with a next-page link present, an empty product list
yields no `nextPage`-tagged request, while a one-product list yields
exactly one. -/
theorem empty_product_list_skips_nextpage_witness :
    (parse_navigation EcommerceCrawlStrategy.navigation none
        { url := "https://example.com", items := some [],
          nextPage := some sampleNextPageLink, subCategories := none }).filter
      isNextPageTagged = [] ∧
    ((parse_navigation EcommerceCrawlStrategy.navigation none
        { url := "https://example.com", items := some [sampleProductLink],
          nextPage := some sampleNextPageLink, subCategories := none }).filter
      isNextPageTagged).length = 1 := by
  refine ⟨(empty_product_list_skips_nextpage EcommerceCrawlStrategy.navigation
    none { url := "https://example.com", items := some [],
           nextPage := some sampleNextPageLink, subCategories := none }
    sampleNextPageLink rfl).1 rfl, ?_⟩
  rw [(empty_product_list_skips_nextpage EcommerceCrawlStrategy.navigation
    none { url := "https://example.com", items := some [sampleProductLink],
           nextPage := some sampleNextPageLink, subCategories := none }
    sampleNextPageLink rfl).2 rfl]
  rfl

lemma mem_parse_navigation (strategy : EcommerceCrawlStrategy)
    (pp : Option PageParams) (nav : ProductNavigation) (r : ScrapyRequest)
    (hr : r ∈ parse_navigation strategy pp nav) :
    (∃ x, x ∈ nav.items.getD [] ∧ r = get_parse_product_request x none) ∨
    (∃ np, nav.nextPage = some np ∧ r = get_nextpage_request np none none) ∨
    (∃ x, x ∈ nav.subCategories.getD [] ∧
      strategy ≠ EcommerceCrawlStrategy.pagination_only ∧
      r = get_subcategory_request x none pp none) := by
  obtain ⟨u, items, nextPage, subs⟩ := nav
  unfold parse_navigation at hr
  simp only [List.mem_append] at hr
  rcases hr with (hr | hr) | hr
  · left
    rcases List.mem_map.mp hr with ⟨x, hx, hfx⟩
    exact ⟨x, hx, hfx.symm⟩
  · right
    left
    cases nextPage with
    | none => simp at hr
    | some np =>
      refine ⟨np, rfl, ?_⟩
      by_cases hemp : (items.getD ([] : List ProbabilityRequest)).isEmpty = true
      · simp [hemp] at hr
      · simp [hemp] at hr
        exact hr
  · right
    right
    by_cases hs : strategy ≠ EcommerceCrawlStrategy.pagination_only
    · rw [if_pos hs] at hr
      rcases List.mem_map.mp hr with ⟨x, hx, hfx⟩
      exact ⟨x, hx, hs, hfx.symm⟩
    · rw [if_neg hs] at hr
      simp at hr

/-- C1 (amended): with the crawl-start `page_params` threaded into
`parse_navigation`, every plain `subCategories`-tagged request carries
an empty `PageParams` under every strategy; every
`productNavigation-heuristics`-tagged request carries the crawl-start
`PageParams` — non-empty (`full_domain` entry) under `full`, empty under
the other strategies. -/
theorem full_strategy_page_params (strategy : EcommerceCrawlStrategy)
    (domain : String) (nav : ProductNavigation) (r : ScrapyRequest)
    (hr : r ∈ parse_navigation strategy
      (some (start_page_params strategy domain)) nav) :
    (r.meta.crawling_logs_page_type = "subCategories" →
      r.meta.page_params = some []) ∧
    (r.meta.crawling_logs_page_type = "productNavigation-heuristics" →
      r.meta.page_params = some (start_page_params strategy domain) ∧
      (strategy = EcommerceCrawlStrategy.full →
        r.meta.page_params = some [("full_domain", domain)] ∧
        start_page_params strategy domain ≠ []) ∧
      (strategy ≠ EcommerceCrawlStrategy.full →
        r.meta.page_params = some [])) := by
  rcases mem_parse_navigation _ _ _ _ hr with
    ⟨x, hx, rfl⟩ | ⟨np, hnp, rfl⟩ | ⟨x, hx, hs, rfl⟩
  · constructor <;> intro hpt <;> simp [get_parse_product_request] at hpt
  · constructor <;> intro hpt <;>
      simp [get_nextpage_request, get_parse_navigation_request] at hpt
  · unfold get_subcategory_request
    split
    · constructor
      · intro _
        rfl
      · intro hpt
        simp [get_parse_navigation_request] at hpt
    · constructor
      · intro hpt
        simp [get_parse_navigation_request] at hpt
      · intro _
        refine ⟨rfl, ?_, ?_⟩
        · intro hf
          subst hf
          constructor
          · show some (pyOrParams (some (start_page_params
              EcommerceCrawlStrategy.full domain))) = some [("full_domain", domain)]
            simp [pyOrParams, start_page_params]
          · simp [start_page_params]
        · intro hf
          show some (pyOrParams (some (start_page_params strategy domain))) =
            some []
          simp [pyOrParams, start_page_params, hf]

/-- Counterexample to C1 as stated: under the `full` strategy, a plain
(non-heuristic) subcategory link yields a `subCategories`-tagged request
whose `PageParams` is empty — it does not carry the non-empty
crawl-start `full_domain` entry. -/
theorem full_strategy_page_params_counterexample :
    ∃ r, r ∈ parse_navigation EcommerceCrawlStrategy.full
        (some (start_page_params EcommerceCrawlStrategy.full "example.com"))
        { url := "https://example.com", items := some [], nextPage := none,
          subCategories := some [sampleSubcatLink] } ∧
      r.meta.crawling_logs_page_type = "subCategories" ∧
      r.meta.page_params = some [] ∧
      r.meta.page_params ≠
        some (start_page_params EcommerceCrawlStrategy.full "example.com") := by
  refine ⟨get_subcategory_request sampleSubcatLink none
    (some (start_page_params EcommerceCrawlStrategy.full "example.com")) none,
    ?_, ?_, ?_, ?_⟩ <;> decide

/-- Witness for C1 (amended) at a heuristics-tagged request under
`full`: it carries the non-empty `full_domain` page params. -/
theorem full_strategy_page_params_witness :
    (get_subcategory_request sampleHeuristicsLink none
      (some (start_page_params EcommerceCrawlStrategy.full "example.com"))
      none).meta.page_params = some [("full_domain", "example.com")] := by
  have h := (full_strategy_page_params EcommerceCrawlStrategy.full "example.com"
    { url := "https://example.com", items := some [], nextPage := none,
      subCategories := some [sampleHeuristicsLink] }
    (get_subcategory_request sampleHeuristicsLink none
      (some (start_page_params EcommerceCrawlStrategy.full "example.com")) none)
    (by decide)).2 (by decide)
  exact (h.2.1 rfl).1

/-- C8: a subcategory candidate whose name contains `"[heuristics]"` is
tagged `productNavigation-heuristics` with the marker removed and
surrounding whitespace stripped from its name; a candidate whose name
lacks the marker is tagged `subCategories` with its name unchanged. -/
theorem subcategory_request_tagging (r : ProbabilityRequest)
    (cb : Option Callback) (pp : Option PageParams) (pr : Option ℤ)
    (name : String) :
    (r.name = some name → containsHeuristicsMarker name = true →
      (get_subcategory_request r cb pp pr).meta.crawling_logs_page_type =
        "productNavigation-heuristics" ∧
      (get_subcategory_request r cb pp pr).meta.crawling_logs_name =
        some (stripHeuristicsMarker name)) ∧
    (containsHeuristicsMarker (r.name.getD "") = false →
      (get_subcategory_request r cb pp pr).meta.crawling_logs_page_type =
        "subCategories" ∧
      (get_subcategory_request r cb pp pr).meta.crawling_logs_name =
        some (r.name.getD "")) := by
  constructor
  · intro hname hmark
    unfold get_subcategory_request
    simp [hname, hmark, get_parse_navigation_request]
  · intro hmark
    unfold get_subcategory_request
    simp [hmark, get_parse_navigation_request]

/-- Witness for C8: the candidate named `"[heuristics] Shoes"` yields a
`productNavigation-heuristics`-tagged request named `"Shoes"`. -/
theorem subcategory_request_tagging_witness :
    (get_subcategory_request sampleHeuristicsLink none
      (some [("full_domain", "example.com")])
      none).meta.crawling_logs_page_type = "productNavigation-heuristics" ∧
    (get_subcategory_request sampleHeuristicsLink none
      (some [("full_domain", "example.com")])
      none).meta.crawling_logs_name = some "Shoes" := by
  have h := (subcategory_request_tagging sampleHeuristicsLink none
    (some [("full_domain", "example.com")]) none "[heuristics] Shoes").1
    rfl (by decide)
  refine ⟨h.1, ?_⟩
  rw [h.2]
  decide

end ZyteSpider
